import Mathlib

/-!
Shallow embedding of `cas_create_db_fingerprint.py` (Cassandra database
fingerprint generator) and verification of its specification claims.

Python runtime values flowing through the script are modelled by the
inductive type `Value`; Python exceptions by `Except QueryError`; the
Cassandra driver session by a `Session` record holding the (abstract)
query-execution function and the driver value encoder.  Python `%`-style
parameter substitution (`cassandra.query.bind_params`) is modelled by the
character-level state machine `pctRun`.
-/

/-- Runtime value of a row cell or document node: the JSON-representable
shapes (null, bool, int, string, list, dict) plus `vother` for any
driver-specific type that `json.dumps` cannot encode (timestamps, UUIDs,
decimals, ...), carrying its `str()` rendering. -/
inductive Value : Type where
  | vnull : Value
  | vbool : Bool → Value
  | vint : Int → Value
  | vstr : String → Value
  | vlist : List Value → Value
  | vdict : List (String × Value) → Value
  | vother : String → Value
deriving Repr

mutual

/-- Embedding of "`json.dumps(value)` succeeds": true exactly when the value
contains no `vother` node anywhere. -/
def jsonable : Value → Bool
  | .vnull => true
  | .vbool _ => true
  | .vint _ => true
  | .vstr _ => true
  | .vlist l => jsonableList l
  | .vdict l => jsonableDict l
  | .vother _ => false

/-- All elements of a list are `json.dumps`-encodable. -/
def jsonableList : List Value → Bool
  | [] => true
  | v :: rest => jsonable v && jsonableList rest

/-- All values of a dict are `json.dumps`-encodable (keys are strings). -/
def jsonableDict : List (String × Value) → Bool
  | [] => true
  | p :: rest => jsonable p.2 && jsonableDict rest

end

/-- Python `sep.join(parts)`. -/
def pyJoin (sep : String) : List String → String
  | [] => ""
  | [a] => a
  | a :: rest => a ++ sep ++ pyJoin sep rest

mutual

/-- Python `repr(value)` rendering (nested positions of `str(value)`). -/
def pyRepr : Value → String
  | .vnull => "None"
  | .vbool b => if b then "True" else "False"
  | .vint n => toString n
  | .vstr s => "\x27" ++ s ++ "\x27"
  | .vlist l => "[" ++ pyReprList l ++ "]"
  | .vdict l => "\x7b" ++ pyReprDict l ++ "\x7d"
  | .vother r => r

/-- Comma-joined reprs of list elements. -/
def pyReprList : List Value → String
  | [] => ""
  | [v] => pyRepr v
  | v :: rest => pyRepr v ++ ", " ++ pyReprList rest

/-- Comma-joined reprs of dict entries. -/
def pyReprDict : List (String × Value) → String
  | [] => ""
  | [p] => "\x27" ++ p.1 ++ "\x27: " ++ pyRepr p.2
  | p :: rest => "\x27" ++ p.1 ++ "\x27: " ++ pyRepr p.2 ++ ", " ++ pyReprDict rest

end

/-- Python `str(value)`: the string itself for a `str`, the repr-style
rendering otherwise (for `vother`, its carried `str()` text). -/
def pyStr : Value → String
  | .vstr s => s
  | v => pyRepr v

/-- Embedding of `escape_row` (lines 13-18): try `json.dumps(value)` and
return the value unchanged on success; on `TypeError` return `str(value)`. -/
def escape_row (value : Value) : Value :=
  if jsonable value then value else .vstr (pyStr value)

/-- Python exceptions that abort or divert a query: `cassandra.ReadFailure`
(the excessive-tombstone condition caught at line 71), a parameter-binding
failure (`KeyError`/`ValueError` from `%`-substitution), or any other
driver/server error. -/
inductive QueryError : Type where
  | readFailure : QueryError
  | bindError : String → QueryError
  | other : String → QueryError
deriving Repr, DecidableEq

/-- One database row as produced by `cassandra.query.dict_factory`: a
mapping from column name to cell value. -/
abbrev Row : Type := List (String × Value)

/-- Driver session boundary: `run q` executes the fully-resolved query text
`q` and returns its rows (or a driver error); `enc v` is the driver's CQL
literal encoding of a bound value (`Encoder.cql_encode_all_types`). -/
structure Session : Type where
  run : String → Except QueryError (List Row)
  enc : Value → String

/-- Scanner state for Python `%`-style formatting: in plain text, just after
`%`, inside a `%(name` group collecting the key, or just after `%(name)`
awaiting the `s` conversion. -/
inductive PState : Type where
  | norm : PState
  | sawPct : PState
  | inName : List Char → PState
  | sawClose : List Char → PState

/-- Character-level embedding of Python `%`-formatting as used by the
driver's `bind_params`: `%%` emits `%`, `%s` consumes the next positional
argument, `%(name)s` looks `name` up in the mapping; anything else the
script never produces is a formatting error (`none`).  Substituted text is
emitted verbatim and not rescanned, as in Python. -/
def pctRun (named : String → Option String) : PState → List String → List Char → Option (List Char)
  | .norm, _, [] => some []
  | .norm, pos, c :: rest =>
    if c = '%' then pctRun named .sawPct pos rest
    else (pctRun named .norm pos rest).map (c :: ·)
  | .sawPct, _, [] => none
  | .sawPct, pos, c :: rest =>
    if c = '%' then (pctRun named .norm pos rest).map ('%' :: ·)
    else if c = 's' then
      match pos with
      | [] => none
      | p :: ps => (pctRun named .norm ps rest).map (p.data ++ ·)
    else if c = '(' then pctRun named (.inName []) pos rest
    else none
  | .inName _, _, [] => none
  | .inName acc, pos, c :: rest =>
    if c = ')' then pctRun named (.sawClose acc) pos rest
    else pctRun named (.inName (acc ++ [c])) pos rest
  | .sawClose _, _, [] => none
  | .sawClose acc, pos, c :: rest =>
    if c = 's' then
      match named (String.mk acc) with
      | none => none
      | some v => (pctRun named .norm pos rest).map (v.data ++ ·)
    else none

/-- Embedding of `cassandra.query.bind_params`: substitute positional (`%s`)
or named (`%(name)s`) parameters into the statement text, already encoded to
CQL literals; a malformed format or missing key raises. -/
def bind_params (query : String) (pos : List String) (named : String → Option String) :
    Except QueryError String :=
  match pctRun named .norm pos query.data with
  | some cs => .ok (String.mk cs)
  | none => .error (.bindError query)

/-- Sequential effectful map modelling a Python `for` loop that builds a
list and lets exceptions escape: apply `f` to each element in order,
stopping at the first error. -/
def pyMapM {α β : Type} (f : α → Except QueryError β) : List α → Except QueryError (List β)
  | [] => .ok []
  | a :: rest => do
    let b ← f a
    let bs ← pyMapM f rest
    pure (b :: bs)

/-- Column metadata: only the name is consumed by the script. -/
structure ColumnMeta : Type where
  name : String
deriving Repr, DecidableEq

/-- Table metadata as read from `cluster.metadata`: qualified name parts,
the declared primary-key column order (`table.primary_key`), and the DDL
text returned by `table.export_as_string()`. -/
structure TableMeta : Type where
  keyspace_name : String
  name : String
  primary_key : List ColumnMeta
  export_as_string : String
deriving Repr, DecidableEq

/-- One `{query, data}` entry of a fingerprint's per-table `data` list or of
its `custom_queries` list. -/
structure QueryResult : Type where
  query : String
  data : List Value
deriving Repr

/-- Embedding of `build_response_for_row` (lines 42-61): build the equality
predicate over the primary-key columns in declared order, execute it with
the row's key values bound, and record the fully-resolved statement text
(`future.message.query`, i.e. the `bind_params` output) with the normalized
result rows.  A missing primary-key column in the row is a Python
`KeyError` at the `params` comprehension. -/
def build_response_for_row (session : Session) (table : TableMeta) (row : Row) :
    Except QueryError QueryResult := do
  let table_name := table.keyspace_name ++ "." ++ table.name
  let pk := table.primary_key.map ColumnMeta.name
  let predicate := pyJoin " and " (pk.map (fun n => n ++ " = %(" ++ n ++ ")s"))
  let query := "SELECT * FROM " ++ table_name ++ " WHERE " ++ predicate
  let params ← pyMapM (fun k =>
    match List.lookup k row with
    | some v => Except.ok (k, v)
    | none => Except.error (QueryError.other ("KeyError: " ++ k))) pk
  let bounded_query ← bind_params query [] (fun n => (List.lookup n params).map session.enc)
  let rows2 ← session.run bounded_query
  pure { query := bounded_query, data := rows2.map (fun r => escape_row (.vdict r)) }

/-- The `LIMIT` parameter: `None` in template-driven calls, an `int`
otherwise. -/
def sampleSizeValue : Option Nat → Value
  | none => .vnull
  | some n => .vint n

/-- Embedding of `get_table_data_from_db` (lines 64-78): run the
`SELECT * FROM t LIMIT %s` scan; a `cassandra.ReadFailure` there is caught
and yields `None` (no data), any other scan error propagates; each returned
row is then turned into a `QueryResult` outside the `try` block, so per-row
failures propagate. -/
def get_table_data_from_db (session : Session) (table : TableMeta) (sample_size : Option Nat) :
    Except QueryError (Option (List QueryResult)) := do
  let table_name := table.keyspace_name ++ "." ++ table.name
  let q ← bind_params ("SELECT * FROM " ++ table_name ++ " LIMIT %s")
    [session.enc (sampleSizeValue sample_size)] (fun _ => none)
  match session.run q with
  | .error .readFailure => pure none
  | .error e => .error e
  | .ok rows => (pyMapM (build_response_for_row session table) rows).map some

/-- One recorded entry of a template table's `data` list; the code reads
only its `query` string (`row_data["query"]`, line 30). -/
structure RowTemplate : Type where
  query : String
deriving Repr, DecidableEq

/-- A table's entry in the template document: the optional `data` key
(absent, empty list, or recorded queries) plus whether the entry dict has
any other key (such as `schema`), which matters only for truthiness. -/
structure TableTemplate : Type where
  data : Option (List RowTemplate)
  hasOtherKeys : Bool
deriving Repr, DecidableEq

/-- Python truthiness of the template entry dict: non-empty. -/
def TableTemplate.isTruthy (t : TableTemplate) : Bool :=
  t.data.isSome || t.hasOtherKeys

/-- Embedding of `get_table_data_from_template` (lines 21-39): no `data`
key means no data capture (`None`); a non-empty `data` list is replayed
query by query in order; an empty `data` list falls back to
`get_table_data_from_db` with sample size 1. -/
def get_table_data_from_template (session : Session) (table : TableMeta)
    (table_template : TableTemplate) : Except QueryError (Option (List QueryResult)) :=
  match table_template.data with
  | none => .ok none
  | some row_list =>
    if !row_list.isEmpty then
      (pyMapM (fun (row_data : RowTemplate) =>
        (do
          let query := row_data.query
          let result ← session.run query
          pure { query := query, data := result.map (fun r => escape_row (.vdict r)) } :
          Except QueryError QueryResult)) row_list).map some
    else
      get_table_data_from_db session table (some 1)

/-- A table's fingerprint: the `schema` string always, the `data` key only
when data capture produced something (`data is not None`, line 94). -/
structure TableFingerprint : Type where
  schema : String
  data : Option (List QueryResult)
deriving Repr

/-- Python truthiness of `table_template` at line 87: `ksp_template.get`
returned a non-empty dict. -/
def templTruthy : Option TableTemplate → Bool
  | none => false
  | some tt => tt.isTruthy

/-- Embedding of `get_table_fingerprint` (lines 81-96): the template branch
is tested first; otherwise a transient table is skipped; otherwise rows are
sampled from the database.  The `getD` default is never consulted: a truthy
`table_template` is a `some`. -/
def get_table_fingerprint (session : Session) (table : TableMeta) (sample_size : Option Nat)
    (table_template : Option TableTemplate) (transient_tables : List String) :
    Except QueryError TableFingerprint := do
  let data ←
    if templTruthy table_template then
      get_table_data_from_template session table (table_template.getD ⟨none, false⟩)
    else if (table.keyspace_name ++ "." ++ table.name) ∈ transient_tables then
      pure none
    else
      get_table_data_from_db session table sample_size
  pure { schema := table.export_as_string, data := data }

/-- Keyspace metadata: name and its tables in `tables.values()` order. -/
structure KeyspaceMeta : Type where
  name : String
  tables : List TableMeta

/-- Embedding of `generate_fingerprint_for_kp` (lines 99-112): one
`TableFingerprint` per table, keyed by table name, the table's template
entry looked up by name. -/
def generate_fingerprint_for_kp (session : Session) (keyspace : KeyspaceMeta)
    (sample_size : Option Nat) (ksp_template : List (String × TableTemplate))
    (transient_tables : List String) :
    Except QueryError (List (String × TableFingerprint)) :=
  pyMapM (fun table => do
    let table_template := List.lookup table.name ksp_template
    let tf ← get_table_fingerprint session table sample_size table_template transient_tables
    pure (table.name, tf)) keyspace.tables

/-- Embedding of `execute_custom_queries` (lines 115-125): execute each
query in the given order and pair it with its normalized rows; any failure
propagates. -/
def execute_custom_queries (session : Session) (custom_queries : List String) :
    Except QueryError (List QueryResult) :=
  pyMapM (fun query =>
    (do
      let result_set ← session.run query
      pure { query := query, data := result_set.map (fun r => escape_row (.vdict r)) } :
      Except QueryError QueryResult)) custom_queries

/-- The loaded template document: optional `keyspaces` and `custom_queries`
keys, plus whether any other key is present (for dict truthiness at
line 147). -/
structure TemplateReport : Type where
  keyspaces : Option (List (String × List (String × TableTemplate)))
  custom_queries : Option (List RowTemplate)
  hasOtherKeys : Bool

/-- Python truthiness of the `template_report` dict: non-empty. -/
def TemplateReport.isTruthy (t : TemplateReport) : Bool :=
  t.keyspaces.isSome || t.custom_queries.isSome || t.hasOtherKeys

/-- Python `s.startswith(pre)`: character-level prefix test (the script
uses it with the literal `system`). -/
def pyStartswith (pre s : String) : Bool :=
  List.isPrefixOf pre.data s.data

/-- Cluster metadata: the keyspaces of `cluster.metadata.keyspaces.values()`. -/
structure ClusterMeta : Type where
  keyspaces : List KeyspaceMeta

/-- The produced fingerprint document: the `keyspaces` map and the optional
`custom_queries` list. -/
structure Fingerprint : Type where
  keyspaces : List (String × List (String × TableFingerprint))
  custom_queries : Option (List QueryResult)

/-- Embedding of `generate_fingerprint` (lines 128-150): keyspaces whose
name starts with `system` are filtered out; each remaining keyspace is
fingerprinted with its template slice; then caller-supplied custom queries
are executed (when the list is truthy), and finally template-recorded
custom queries are executed and overwrite that entry (when the report is
truthy and carries the key).  Cluster connection is the session input. -/
def generate_fingerprint (session : Session) (cluster : ClusterMeta) (sample_size : Option Nat)
    (template_report : TemplateReport) (transient_tables : List String)
    (custom_queries : Option (List String)) : Except QueryError Fingerprint := do
  let user_keyspaces := cluster.keyspaces.filter (fun k => !(pyStartswith "system" k.name))
  let template_keyspaces := template_report.keyspaces.getD []
  let ksps ← pyMapM (fun space => do
    let ksp_template := (List.lookup space.name template_keyspaces).getD []
    let kf ← generate_fingerprint_for_kp session space sample_size ksp_template transient_tables
    pure (space.name, kf)) user_keyspaces
  let fresh_cq_e : Except QueryError (Option (List QueryResult)) :=
    match custom_queries with
    | some qs =>
      if !qs.isEmpty then (execute_custom_queries session qs).map some
      else .ok none
    | none => .ok none
  let fresh_cq ← fresh_cq_e
  let final_cq_e : Except QueryError (Option (List QueryResult)) :=
    if template_report.isTruthy && template_report.custom_queries.isSome then
      (execute_custom_queries session
        ((template_report.custom_queries.getD []).map RowTemplate.query)).map some
    else .ok fresh_cq
  let final_cq ← final_cq_e
  pure { keyspaces := ksps, custom_queries := final_cq }

/-- The two CLI subcommands (lines 159-180): `template` with a loaded prior
fingerprint, or `fingerprint` with a sample size (CLI default 10), the
transient-table list and the optional custom-query list. -/
inductive Command : Type where
  | template : TemplateReport → Command
  | fingerprint : Nat → List String → Option (List String) → Command

/-- Embedding of `run` (lines 186-198): template mode passes `None` as
sample size, an empty transient list and no custom queries; fingerprint
mode passes an empty template report. -/
def run (session : Session) (cluster : ClusterMeta) : Command → Except QueryError Fingerprint
  | .template template_report =>
    generate_fingerprint session cluster none template_report [] none
  | .fingerprint sample_size transient_tables custom_queries =>
    generate_fingerprint session cluster (some sample_size) ⟨none, none, false⟩
      transient_tables custom_queries

/-- The fully-resolved per-row predicate query that `build_response_for_row`
records: equality on each primary-key column in declared order, with the
row's values encoded and substituted in. -/
def resolvedQuery (session : Session) (table : TableMeta) (row : Row) : String :=
  "SELECT * FROM " ++ table.keyspace_name ++ "." ++ table.name ++ " WHERE " ++
    pyJoin " and " ((table.primary_key.map ColumnMeta.name).map
      (fun n => n ++ " = " ++ session.enc ((List.lookup n row).getD .vnull)))

/-- The fully-resolved `LIMIT` scan that `get_table_data_from_db` sends:
the `%s` placeholder replaced by the encoded sample size. -/
def limitQueryResolved (session : Session) (table : TableMeta) (sample_size : Option Nat) :
    String :=
  "SELECT * FROM " ++ table.keyspace_name ++ "." ++ table.name ++ " LIMIT " ++
    session.enc (sampleSizeValue sample_size)


/-- An empty `pyMapM` succeeds with the empty list. -/
theorem pyMapM_nil_ok {α β : Type} (f : α → Except QueryError β) (res : List β) :
    pyMapM f [] = .ok res ↔ res = [] := by
  simp only [pyMapM]
  exact ⟨fun h => by cases h; rfl, fun h => by cases h; rfl⟩

/-- Success of a `pyMapM` step: the head succeeds, the tail succeeds, and
the results are consed. -/
theorem pyMapM_cons_ok {α β : Type} (f : α → Except QueryError β) (a : α) (rest : List α)
    (res : List β) :
    pyMapM f (a :: rest) = .ok res ↔
      ∃ b bs, f a = .ok b ∧ pyMapM f rest = .ok bs ∧ res = b :: bs := by
  constructor
  · intro h
    cases hfa : f a with
    | error e =>
      rw [pyMapM, hfa] at h
      simp [Bind.bind, Except.bind, Functor.map, Except.map] at h
    | ok b =>
      cases hrest : pyMapM f rest with
      | error e =>
        rw [pyMapM, hfa, hrest] at h
        simp [Bind.bind, Except.bind, Functor.map, Except.map] at h
      | ok bs =>
        rw [pyMapM, hfa, hrest] at h
        simp [Bind.bind, Except.bind, Functor.map, Except.map, pure, Except.pure] at h
        exact ⟨b, bs, rfl, rfl, h.symm⟩
  · rintro ⟨b, bs, hb, hbs, rfl⟩
    rw [pyMapM, hb, hbs]
    rfl

/-- A failing head makes the whole `pyMapM` fail with that error. -/
theorem pyMapM_cons_error {α β : Type} (f : α → Except QueryError β) (a : α) (rest : List α)
    (e : QueryError) (h : f a = .error e) : pyMapM f (a :: rest) = .error e := by
  rw [pyMapM, h]
  rfl

/-- A successful `pyMapM` maps a list of the same length, pointwise. -/
theorem pyMapM_ok {α β : Type} (f : α → Except QueryError β) :
    ∀ (l : List α) (res : List β), pyMapM f l = .ok res →
      res.length = l.length ∧
      ∀ i (hi : i < l.length) (hr : i < res.length),
        f l[i] = .ok res[i]
  | [], res, h => by
    rw [pyMapM_nil_ok] at h
    subst h
    exact ⟨rfl, fun i hi _ => absurd hi (by simp)⟩
  | a :: rest, res, h => by
    rw [pyMapM_cons_ok] at h
    obtain ⟨b, bs, hb, hbs, rfl⟩ := h
    have ih := pyMapM_ok f rest bs hbs
    refine ⟨by simp [ih.1], fun i hi hr => ?_⟩
    match i with
    | 0 => simpa using hb
    | i + 1 =>
      have := ih.2 i (by simpa using hi) (by simpa using hr)
      simpa using this

/-- A `pyMapM` whose function tags each element with a name yields pairs
whose first components are exactly those names, in order. -/
theorem pyMapM_fst_eq {α β γ : Type} (f : α → Except QueryError (γ × β)) (g : α → γ)
    (hg : ∀ a p, f a = .ok p → p.1 = g a) :
    ∀ (l : List α) (res : List (γ × β)), pyMapM f l = .ok res →
      res.map Prod.fst = l.map g
  | [], res, h => by
    rw [pyMapM_nil_ok] at h
    subst h
    simp
  | a :: rest, res, h => by
    rw [pyMapM_cons_ok] at h
    obtain ⟨p, ps, hp, hps, rfl⟩ := h
    simp [hg a p hp, pyMapM_fst_eq f g hg rest ps hps]

/-- A successful `execute_custom_queries` carries exactly the requested
query strings in order. -/
theorem execute_custom_queries_queries (session : Session) :
    ∀ (qs : List String) (res : List QueryResult),
      execute_custom_queries session qs = .ok res →
      res.map QueryResult.query = qs
  | [], res, h => by
    rw [execute_custom_queries, pyMapM_nil_ok] at h
    subst h
    simp
  | q :: rest, res, h => by
    rw [execute_custom_queries, pyMapM_cons_ok] at h
    obtain ⟨b, bs, hb, hbs, rfl⟩ := h
    have ih := execute_custom_queries_queries session rest bs
      (by rw [execute_custom_queries]; exact hbs)
    cases hq : session.run q with
    | error e => rw [hq] at hb; simp [Bind.bind, Except.bind, Functor.map, Except.map] at hb
    | ok rows =>
      rw [hq] at hb
      simp only [Bind.bind, Except.bind, Functor.map, Except.map, pure, Except.pure] at hb
      cases hb
      simp [ih]

/-- C5: the value normalizer `escape_row` is total (it is a total function
of every `Value`) and deterministic (it is a pure function): a value that
`json.dumps` can encode is returned unchanged, and any other value becomes
its canonical `str()` rendering. -/
theorem C5_escape_row_total (v : Value) :
    (jsonable v = true → escape_row v = v) ∧
    (jsonable v = false → escape_row v = .vstr (pyStr v)) := by
  constructor
  · intro h
    simp [escape_row, h]
  · intro h
    simp [escape_row, h]

/-- Witness for C5: a JSON-encodable int is kept, a driver-specific value
is stringified. -/
theorem C5_witness :
    escape_row (.vint 5) = .vint 5 ∧
    escape_row (.vother "2020-01-01 00:00:00") = .vstr "2020-01-01 00:00:00" := by
  constructor
  · exact (C5_escape_row_total (.vint 5)).1 rfl
  · exact (C5_escape_row_total (.vother "2020-01-01 00:00:00")).2 rfl

/-- C9: normalization is idempotent on its own output:
`escape_row (escape_row v) = escape_row v` for every value. -/
theorem C9_escape_row_idempotent (v : Value) :
    escape_row (escape_row v) = escape_row v := by
  by_cases h : jsonable v = true
  · simp [escape_row, h]
  · have h' : jsonable v = false := by revert h; cases jsonable v <;> simp
    simp [escape_row, h', jsonable]

/-- C3: a template table entry whose `data` key is bound to the empty list
makes the replayer fall back to a fresh database sample with sample size
exactly 1 (neither zero nor the run's configured size), while an entry with
no `data` key at all yields no data capture. -/
theorem C3_empty_template_bootstrap (session : Session) (table : TableMeta)
    (tt : TableTemplate) :
    (tt.data = some [] →
      get_table_data_from_template session table tt =
        get_table_data_from_db session table (some 1)) ∧
    (tt.data = none →
      get_table_data_from_template session table tt = .ok none) := by
  constructor
  · intro h
    simp [get_table_data_from_template, h]
  · intro h
    simp [get_table_data_from_template, h]

/-- Witness for C3: both branches at a concrete session, table and
template entry. -/
theorem C3_witness :
    (get_table_data_from_template ⟨fun _ => .ok [], fun _ => ""⟩
        ⟨"ks", "t", [⟨"id"⟩], "ddl"⟩ ⟨some [], true⟩ =
      get_table_data_from_db ⟨fun _ => .ok [], fun _ => ""⟩
        ⟨"ks", "t", [⟨"id"⟩], "ddl"⟩ (some 1)) ∧
    (get_table_data_from_template ⟨fun _ => .ok [], fun _ => ""⟩
        ⟨"ks", "t", [⟨"id"⟩], "ddl"⟩ ⟨none, true⟩ = .ok none) := by
  constructor
  · exact (C3_empty_template_bootstrap _ _ _).1 rfl
  · exact (C3_empty_template_bootstrap _ _ _).2 rfl

/-- C7: replaying a template entry with a non-empty `data` list yields one
`QueryResult` per recorded entry, in the template's order, reusing each
recorded query string verbatim, with `data` the normalized rows obtained by
re-executing exactly that string. -/
theorem C7_template_replay_fidelity (session : Session) (table : TableMeta)
    (tt : TableTemplate) (row_list : List RowTemplate) (res : List QueryResult)
    (hd : tt.data = some row_list) (hne : row_list ≠ [])
    (hok : get_table_data_from_template session table tt = .ok (some res)) :
    res.length = row_list.length ∧
    res.map QueryResult.query = row_list.map RowTemplate.query ∧
    ∀ i (hi : i < row_list.length) (hr : i < res.length),
      ∃ rows, session.run row_list[i].query = .ok rows ∧
        res[i] = { query := row_list[i].query,
                   data := rows.map (fun r => escape_row (.vdict r)) } := by
  rw [get_table_data_from_template, hd] at hok
  have hne' : row_list.isEmpty = false := by
    cases row_list with
    | nil => exact absurd rfl hne
    | cons a l => rfl
  simp only [hne', Bool.not_false, if_true] at hok
  have hpy : pyMapM (fun (row_data : RowTemplate) =>
      (do
        let query := row_data.query
        let result ← session.run query
        pure { query := query, data := result.map (fun r => escape_row (.vdict r)) } :
        Except QueryError QueryResult)) row_list = .ok res := by
    cases hp : pyMapM (fun (row_data : RowTemplate) =>
        (do
          let query := row_data.query
          let result ← session.run query
          pure { query := query, data := result.map (fun r => escape_row (.vdict r)) } :
          Except QueryError QueryResult)) row_list with
    | error e =>
      rw [hp] at hok
      simp [Except.map] at hok
    | ok r =>
      rw [hp] at hok
      simp only [Except.map, Except.ok.injEq, Option.some.injEq] at hok
      rw [hok]
  have hpt := pyMapM_ok _ row_list res hpy
  have hlen : res.length = row_list.length := hpt.1
  have hpoint : ∀ i (hi : i < row_list.length) (hr : i < res.length),
      ∃ rows, session.run row_list[i].query = .ok rows ∧
        res[i] = { query := row_list[i].query,
                   data := rows.map (fun r => escape_row (.vdict r)) } := by
    intro i hi hr
    have h := hpt.2 i hi hr
    cases hq : session.run row_list[i].query with
    | error e =>
      simp [hq, Bind.bind, Except.bind, Functor.map, Except.map] at h
    | ok rows =>
      simp only [hq, Bind.bind, Except.bind, Functor.map, Except.map, pure, Except.pure,
        Except.ok.injEq] at h
      exact ⟨rows, rfl, h.symm⟩
  refine ⟨hlen, ?_, hpoint⟩
  apply List.ext_getElem (by simp [hlen])
  intro n h1 h2
  obtain ⟨rows, _, hres⟩ := hpoint n (by simpa using h2) (by simpa using h1)
  simp only [List.getElem_map]
  rw [hres]

/-- Witness for C7: a two-entry template replayed against a concrete
session keeps both query strings in order. -/
theorem C7_witness :
    ([⟨"Q1", [.vdict [("id", .vint 1)]]⟩, ⟨"Q2", []⟩] : List QueryResult).map
      QueryResult.query = ["Q1", "Q2"] := by
  have h := C7_template_replay_fidelity
    ⟨fun q => if q = "Q1" then .ok [[("id", .vint 1)]]
      else if q = "Q2" then .ok [] else .error (.other "unexpected"), fun _ => ""⟩
    ⟨"ks", "t", [⟨"id"⟩], "ddl"⟩ ⟨some [⟨"Q1"⟩, ⟨"Q2"⟩], true⟩ [⟨"Q1"⟩, ⟨"Q2"⟩]
    [⟨"Q1", [.vdict [("id", .vint 1)]]⟩, ⟨"Q2", []⟩] rfl (by simp) (by rfl)
  exact h.2.1

/-- C1 counterexample: the claim says a transient table never gets a `data`
key even when a template entry is present, and that the transient check is
made first.  In the code the template branch is tested first: here the
table's qualified name `ks.t` is in the transient set, a truthy template
entry exists, and the produced fingerprint does carry a `data` key. -/
theorem C1_counterexample :
    ("ks.t" : String) ∈ ["ks.t"] ∧
    get_table_fingerprint
        ⟨fun q => if q = "Q1" then .ok [[("id", .vint 1)]] else .error (.other "unexpected"),
          fun _ => ""⟩
        ⟨"ks", "t", [⟨"id"⟩], "ddl"⟩ none (some ⟨some [⟨"Q1"⟩], true⟩) ["ks.t"] =
      .ok { schema := "ddl",
            data := some [{ query := "Q1", data := [.vdict [("id", .vint 1)]] }] } := by
  exact ⟨by simp, by rfl⟩

/-- C1 amended: for every table whose qualified name is in the transient
set and whose template entry is absent or an empty (falsy) mapping, the
produced fingerprint has no `data` key, regardless of sample size; the
template check is made first and a truthy template entry takes precedence
over the transient check. -/
theorem C1_transient_skip (session : Session) (table : TableMeta)
    (sample_size : Option Nat) (table_template : Option TableTemplate)
    (transient_tables : List String)
    (htt : templTruthy table_template = false)
    (hmem : (table.keyspace_name ++ "." ++ table.name) ∈ transient_tables) :
    get_table_fingerprint session table sample_size table_template transient_tables =
      .ok { schema := table.export_as_string, data := none } := by
  rw [get_table_fingerprint]
  simp [htt, hmem, Bind.bind, Except.bind, pure, Except.pure]

/-- Witness for C1 amended: a transient table with no template entry is
schema-only. -/
theorem C1_witness :
    get_table_fingerprint ⟨fun _ => .error (.other "no query expected"), fun _ => ""⟩
        ⟨"ks", "t", [⟨"id"⟩], "ddl"⟩ (some 10) none ["ks.t"] =
      .ok { schema := "ddl", data := none } :=
  C1_transient_skip _ _ _ _ _ rfl (by simp)

/-- C10: a table whose template entry is absent or an empty (falsy) mapping
is not template-replayed: the code falls through to the transient check and
then (for a non-transient table) to a fresh database sample with the run's
configured sample size; and in template mode `run` passes `None` as that
sample size (and no transient tables and no custom queries). -/
theorem C10_falsy_template_falls_through :
    (∀ (session : Session) (table : TableMeta) (sample_size : Option Nat)
      (table_template : Option TableTemplate) (transient_tables : List String),
      templTruthy table_template = false →
      (table.keyspace_name ++ "." ++ table.name) ∉ transient_tables →
      get_table_fingerprint session table sample_size table_template transient_tables =
        (get_table_data_from_db session table sample_size).map
          (fun d => { schema := table.export_as_string, data := d })) ∧
    (∀ (session : Session) (cluster : ClusterMeta) (template_report : TemplateReport),
      run session cluster (.template template_report) =
        generate_fingerprint session cluster none template_report [] none) := by
  constructor
  · intro session table sample_size table_template transient_tables htt hmem
    rw [get_table_fingerprint]
    simp only [htt, Bool.false_eq_true, if_false, hmem, ite_false]
    cases hdb : get_table_data_from_db session table sample_size with
    | error e => simp [hdb, Bind.bind, Except.bind, Except.map]
    | ok d => simp [hdb, Bind.bind, Except.bind, Except.map, pure, Except.pure]
  · intro session cluster template_report
    rfl

/-- Witness for C10: with no template entry and an unreachable transient
list, the fingerprint is the fresh sample wrapped with the schema; the
sample here read-fails on tombstones, so `data` is omitted. -/
theorem C10_witness :
    get_table_fingerprint ⟨fun _ => .error .readFailure, fun _ => "10"⟩
        ⟨"ks", "t", [⟨"id"⟩], "ddl"⟩ (some 10) (some ⟨none, false⟩) ["ks.other"] =
      (get_table_data_from_db ⟨fun _ => .error .readFailure, fun _ => "10"⟩
        ⟨"ks", "t", [⟨"id"⟩], "ddl"⟩ (some 10)).map
          (fun d => { schema := "ddl", data := d }) ∧
    run ⟨fun _ => .error .readFailure, fun _ => "10"⟩ ⟨[]⟩ (.template ⟨none, none, true⟩) =
      generate_fingerprint ⟨fun _ => .error .readFailure, fun _ => "10"⟩ ⟨[]⟩ none
        ⟨none, none, true⟩ [] none := by
  constructor
  · exact C10_falsy_template_falls_through.1 _ _ _ _ _ rfl (by simp)
  · exact C10_falsy_template_falls_through.2 _ _ _

/-- A monadic bind over `Except` succeeds exactly when both stages do. -/
theorem except_bind_ok_iff {α β : Type} (x : Except QueryError α)
    (f : α → Except QueryError β) (b : β) :
    (x >>= f) = .ok b ↔ ∃ a, x = .ok a ∧ f a = .ok b := by
  cases x with
  | error e => simp [Bind.bind, Except.bind]
  | ok a => simp [Bind.bind, Except.bind]

/-- C2: when a fresh custom-query list and a template with a recorded
`custom_queries` list are both supplied, the final document's
`custom_queries` is the template's recorded query strings re-executed in
their recorded order — the template-derived results overwrite the fresh
ones. -/
theorem C2_template_custom_queries_override (session : Session) (cluster : ClusterMeta)
    (sample_size : Option Nat) (template_report : TemplateReport)
    (transient_tables : List String) (fresh : List String) (ts : List RowTemplate)
    (fp : Fingerprint)
    (hts : template_report.custom_queries = some ts)
    (hok : generate_fingerprint session cluster sample_size template_report
      transient_tables (some fresh) = .ok fp) :
    ∃ rs, execute_custom_queries session (ts.map RowTemplate.query) = .ok rs ∧
      fp.custom_queries = some rs ∧
      rs.map QueryResult.query = ts.map RowTemplate.query := by
  rw [generate_fingerprint] at hok
  rw [except_bind_ok_iff] at hok
  obtain ⟨ksps, hks, hok⟩ := hok
  rw [except_bind_ok_iff] at hok
  obtain ⟨fresh_cq, hfresh, hok⟩ := hok
  rw [except_bind_ok_iff] at hok
  obtain ⟨final_cq, hfinal, hok⟩ := hok
  have hfp : { keyspaces := ksps, custom_queries := final_cq } = fp := by
    simpa [pure, Except.pure] using hok
  subst hfp
  have hcond : (template_report.isTruthy && template_report.custom_queries.isSome) = true := by
    simp [TemplateReport.isTruthy, hts]
  rw [if_pos hcond] at hfinal
  simp only [hts, Option.getD_some] at hfinal
  cases hex : execute_custom_queries session (ts.map RowTemplate.query) with
  | error e =>
    rw [hex] at hfinal
    simp [Except.map] at hfinal
  | ok rs =>
    rw [hex] at hfinal
    simp only [Except.map, Except.ok.injEq] at hfinal
    exact ⟨rs, rfl, by simp [hfinal.symm],
      execute_custom_queries_queries session (ts.map RowTemplate.query) rs hex⟩

/-- Witness for C2: an empty cluster, a fresh list `["FQ"]` and a template
recording `["TQ"]`; the emitted document carries the re-executed `TQ`. -/
theorem C2_witness :
    ∃ rs, execute_custom_queries
        ⟨fun q => if q = "TQ" ∨ q = "FQ" then .ok [] else .error (.other "x"), fun _ => ""⟩
        (([⟨"TQ"⟩] : List RowTemplate).map RowTemplate.query) = .ok rs ∧
      (Fingerprint.mk [] (some [⟨"TQ", []⟩])).custom_queries = some rs ∧
      rs.map QueryResult.query = ([⟨"TQ"⟩] : List RowTemplate).map RowTemplate.query :=
  C2_template_custom_queries_override
    ⟨fun q => if q = "TQ" ∨ q = "FQ" then .ok [] else .error (.other "x"), fun _ => ""⟩
    ⟨[]⟩ none ⟨none, some [⟨"TQ"⟩], false⟩ [] ["FQ"] [⟨"TQ"⟩]
    ⟨[], some [⟨"TQ", []⟩]⟩ rfl (by rfl)

/-- C8: the output's `keyspaces` map has one entry per cluster keyspace
whose name does not begin with the `system` prefix, in cluster order, and
no entry for any keyspace whose name begins with that prefix. -/
theorem C8_system_keyspaces_excluded (session : Session) (cluster : ClusterMeta)
    (sample_size : Option Nat) (template_report : TemplateReport)
    (transient_tables : List String) (custom_queries : Option (List String))
    (fp : Fingerprint)
    (hok : generate_fingerprint session cluster sample_size template_report
      transient_tables custom_queries = .ok fp) :
    fp.keyspaces.map Prod.fst =
      (cluster.keyspaces.filter (fun k => !(pyStartswith "system" k.name))).map
        KeyspaceMeta.name ∧
    ∀ name : String, (∃ e, (name, e) ∈ fp.keyspaces) ↔
      (∃ k ∈ cluster.keyspaces, k.name = name ∧ pyStartswith "system" name = false) := by
  rw [generate_fingerprint.eq_def] at hok
  rw [except_bind_ok_iff] at hok
  obtain ⟨ksps, hks, hok⟩ := hok
  rw [except_bind_ok_iff] at hok
  obtain ⟨fresh_cq, _, hok⟩ := hok
  rw [except_bind_ok_iff] at hok
  obtain ⟨final_cq, _, hok⟩ := hok
  have hfp : { keyspaces := ksps, custom_queries := final_cq } = fp := by
    simpa [pure, Except.pure] using hok
  subst hfp
  have hfst : ksps.map Prod.fst =
      (cluster.keyspaces.filter (fun k => !(pyStartswith "system" k.name))).map
        KeyspaceMeta.name := by
    refine pyMapM_fst_eq _ KeyspaceMeta.name ?_ _ ksps hks
    intro space p hp
    cases hgen : generate_fingerprint_for_kp session space sample_size
        ((List.lookup space.name (template_report.keyspaces.getD [])).getD [])
        transient_tables with
    | error e =>
      simp [hgen, Bind.bind, Except.bind, Functor.map, Except.map] at hp
    | ok kf =>
      simp only [hgen, Bind.bind, Except.bind, Functor.map, Except.map, pure, Except.pure,
        Except.ok.injEq] at hp
      rw [← hp]
  refine ⟨hfst, fun name => ?_⟩
  constructor
  · rintro ⟨e, he⟩
    have hmem : name ∈ (ksps : List (String × List (String × TableFingerprint))).map
        Prod.fst := List.mem_map_of_mem Prod.fst he
    rw [hfst] at hmem
    obtain ⟨k, hk, hkname⟩ := List.mem_map.1 hmem
    have hk' := List.mem_filter.1 hk
    refine ⟨k, hk'.1, hkname, ?_⟩
    have := hk'.2
    rw [hkname] at this
    simpa using this
  · rintro ⟨k, hk, rfl, hsw⟩
    have hkf : k ∈ cluster.keyspaces.filter (fun k => !(pyStartswith "system" k.name)) :=
      List.mem_filter.2 ⟨hk, by simp [hsw]⟩
    have hmem : k.name ∈ ksps.map Prod.fst := by
      rw [hfst]
      exact List.mem_map_of_mem KeyspaceMeta.name hkf
    obtain ⟨p, hp, hpname⟩ := List.mem_map.1 hmem
    exact ⟨p.2, by rw [← hpname]; exact hp⟩

/-- Witness for C8: a cluster with one user keyspace and one `system_auth`
keyspace yields an entry only for the user keyspace. -/
theorem C8_witness :
    (Fingerprint.mk [("app", [])] none).keyspaces.map Prod.fst =
      (([⟨"app", []⟩, ⟨"system_auth", []⟩] : List KeyspaceMeta).filter
        (fun k => !(pyStartswith "system" k.name))).map KeyspaceMeta.name :=
  (C8_system_keyspaces_excluded ⟨fun _ => .error (.other "x"), fun _ => ""⟩
    ⟨[⟨"app", []⟩, ⟨"system_auth", []⟩]⟩ (some 10) ⟨none, none, false⟩ [] none
    ⟨[("app", [])], none⟩ (by rfl)).1

/-- Text without `%` passes through the formatter unchanged, prefixing
whatever the remainder produces. -/
theorem pctRun_append_no_pct (named : String → Option String) (pos : List String) :
    ∀ (l1 l2 : List Char), '%' ∉ l1 →
      pctRun named .norm pos (l1 ++ l2) = (pctRun named .norm pos l2).map (l1 ++ ·)
  | [], l2, _ => by
    cases hr : pctRun named .norm pos l2 <;> simp [hr]
  | c :: rest, l2, h => by
    have hc : ¬ c = '%' := by
      intro e
      subst e
      exact h (List.mem_cons_self _ _)
    rw [List.cons_append]
    simp only [pctRun, if_neg hc]
    rw [pctRun_append_no_pct named pos rest l2 (fun hm => h (List.mem_cons_of_mem c hm))]
    cases pctRun named .norm pos l2 <;> simp

/-- Scanning a `)`-free name inside a `%(...)s` group accumulates it and
applies the named lookup. -/
theorem pctRun_inName_scan (named : String → Option String) (pos : List String) :
    ∀ (name acc rest : List Char), ')' ∉ name →
      pctRun named (.inName acc) pos (name ++ ')' :: 's' :: rest) =
        (match named (String.mk (acc ++ name)) with
         | none => none
         | some v => (pctRun named .norm pos rest).map (v.data ++ ·))
  | [], acc, rest, _ => by
    simp [pctRun]
  | c :: more, acc, rest, h => by
    have hc : ¬ c = ')' := by
      intro e
      subst e
      exact h (List.mem_cons_self _ _)
    rw [List.cons_append]
    simp only [pctRun, if_neg hc]
    rw [pctRun_inName_scan named pos more (acc ++ [c]) rest
      (fun hm => h (List.mem_cons_of_mem c hm))]
    rw [List.append_assoc]
    rfl

/-- A full `%(name)s` placeholder with a `)`-free name resolves through the
named lookup. -/
theorem pctRun_placeholder (named : String → Option String) (pos : List String)
    (name rest : List Char) (h : ')' ∉ name) :
    pctRun named .norm pos ('%' :: '(' :: (name ++ ')' :: 's' :: rest)) =
      (match named (String.mk name) with
       | none => none
       | some v => (pctRun named .norm pos rest).map (v.data ++ ·)) := by
  rw [show pctRun named .norm pos ('%' :: '(' :: (name ++ ')' :: 's' :: rest)) =
      pctRun named (.inName []) pos (name ++ ')' :: 's' :: rest) by simp [pctRun]]
  rw [pctRun_inName_scan named pos name [] rest h]
  rw [List.nil_append]

/-- One `name = %(name)s` predicate segment resolves to `name = value`. -/
theorem pctRun_eq_pred_seg (named : String → Option String) (n : List Char) (tail : List Char)
    (hp : '%' ∉ n) (hr : ')' ∉ n) :
    pctRun named .norm [] (n ++ ' ' :: '=' :: ' ' :: '%' :: '(' :: (n ++ ')' :: 's' :: tail)) =
      (match named (String.mk n) with
       | none => none
       | some v => (pctRun named .norm [] tail).map
           ((n ++ ' ' :: '=' :: ' ' :: v.data) ++ ·)) := by
  rw [show (n ++ ' ' :: '=' :: ' ' :: '%' :: '(' :: (n ++ ')' :: 's' :: tail) : List Char) =
      (n ++ [' ', '=', ' ']) ++ '%' :: '(' :: (n ++ ')' :: 's' :: tail) by simp]
  rw [pctRun_append_no_pct named [] (n ++ [' ', '=', ' '])
    ('%' :: '(' :: (n ++ ')' :: 's' :: tail)) ?hpfree]
  case hpfree =>
    intro hm
    rcases List.mem_append.1 hm with h1 | h2
    · exact hp h1
    · simp at h2
  rw [pctRun_placeholder named [] n tail hr]
  cases named (String.mk n) with
  | none => rfl
  | some v =>
    cases pctRun named .norm [] tail <;> simp

/-- The `LIMIT %s` scan statement binds to the literal limit query. -/
theorem bind_params_limit (session : Session) (table : TableMeta) (sample_size : Option Nat)
    (hks : '%' ∉ table.keyspace_name.data) (htn : '%' ∉ table.name.data) :
    bind_params ("SELECT * FROM " ++ (table.keyspace_name ++ "." ++ table.name) ++ " LIMIT %s")
      [session.enc (sampleSizeValue sample_size)] (fun _ => none) =
      .ok (limitQueryResolved session table sample_size) := by
  rw [bind_params]
  have hpct : pctRun (fun _ => none) .norm [session.enc (sampleSizeValue sample_size)]
      ("SELECT * FROM " ++ (table.keyspace_name ++ "." ++ table.name) ++ " LIMIT %s").data =
      some (limitQueryResolved session table sample_size).data := by
    have hshape : ("SELECT * FROM " ++ (table.keyspace_name ++ "." ++ table.name) ++
        " LIMIT %s").data =
        ("SELECT * FROM ".data ++ table.keyspace_name.data ++ ".".data ++ table.name.data ++
          " LIMIT ".data) ++ ['%', 's'] := by
      simp [String.data_append, List.append_assoc]
    rw [hshape]
    rw [pctRun_append_no_pct _ _ _ _ ?hfree]
    case hfree =>
      intro hm
      simp only [List.append_assoc, List.mem_append] at hm
      rcases hm with h1 | h2 | h3 | h4 | h5
      · simp at h1
      · exact hks h2
      · simp at h3
      · exact htn h4
      · simp at h5
    rw [show pctRun (fun _ => none) .norm [session.enc (sampleSizeValue sample_size)]
        ['%', 's'] = some (session.enc (sampleSizeValue sample_size)).data by
      simp [pctRun]]
    simp [limitQueryResolved, String.data_append, List.append_assoc]
  rw [hpct]

/-- C4: the fresh-sampling failure policy.  A `ReadFailure` on the initial
`LIMIT` scan is recovered (no `data`, `ok none`); any other scan error, and
any per-row predicate error, propagates out of the sampler; a custom-query
error propagates and makes the whole fingerprint generation return an
error, so no document is emitted. -/
theorem C4_failure_policy (session : Session) (table : TableMeta) (sample_size : Option Nat)
    (hks : '%' ∉ table.keyspace_name.data) (htn : '%' ∉ table.name.data) :
    (session.run (limitQueryResolved session table sample_size) = .error .readFailure →
      get_table_data_from_db session table sample_size = .ok none) ∧
    (∀ e, e ≠ QueryError.readFailure →
      session.run (limitQueryResolved session table sample_size) = .error e →
      get_table_data_from_db session table sample_size = .error e) ∧
    (∀ rows e, session.run (limitQueryResolved session table sample_size) = .ok rows →
      pyMapM (build_response_for_row session table) rows = .error e →
      get_table_data_from_db session table sample_size = .error e) ∧
    (∀ q qs e, session.run q = .error e →
      execute_custom_queries session (q :: qs) = .error e) ∧
    (∀ (cluster : ClusterMeta) (template_report : TemplateReport)
      (transient_tables : List String) (q : String) (qs : List String) (e : QueryError)
      (fp : Fingerprint),
      execute_custom_queries session (q :: qs) = .error e →
      generate_fingerprint session cluster sample_size template_report transient_tables
        (some (q :: qs)) ≠ .ok fp) := by
  refine ⟨?rec, ?fatal, ?rowerr, ?cqerr, ?runerr⟩
  case rec =>
    intro h
    rw [get_table_data_from_db]
    rw [bind_params_limit session table sample_size hks htn]
    simp [Bind.bind, Except.bind, h, pure, Except.pure]
  case fatal =>
    intro e hne h
    rw [get_table_data_from_db]
    rw [bind_params_limit session table sample_size hks htn]
    simp only [Bind.bind, Except.bind, h]
  case rowerr =>
    intro rows e hok herr
    rw [get_table_data_from_db]
    rw [bind_params_limit session table sample_size hks htn]
    simp [Bind.bind, Except.bind, hok, herr, Except.map]
  case cqerr =>
    intro q qs e h
    rw [execute_custom_queries]
    apply pyMapM_cons_error
    simp [h, Bind.bind, Except.bind, Functor.map, Except.map]
  case runerr =>
    intro cluster template_report transient_tables q qs e fp hcq hok
    rw [generate_fingerprint] at hok
    rw [except_bind_ok_iff] at hok
    obtain ⟨ksps, _, hok⟩ := hok
    rw [except_bind_ok_iff] at hok
    obtain ⟨fresh_cq, hfresh, _⟩ := hok
    rw [show (!(q :: qs).isEmpty) = true by rfl] at hfresh
    rw [if_pos rfl] at hfresh
    rw [hcq] at hfresh
    simp [Except.map] at hfresh

/-- Witness for C4: a tombstone read failure yields `ok none` (table kept,
data omitted), while a generic server error propagates. -/
theorem C4_witness :
    get_table_data_from_db ⟨fun _ => .error .readFailure, fun _ => "10"⟩
      ⟨"ks", "t", [⟨"id"⟩], "ddl"⟩ (some 10) = .ok none ∧
    get_table_data_from_db ⟨fun _ => .error (.other "boom"), fun _ => "10"⟩
      ⟨"ks", "t", [⟨"id"⟩], "ddl"⟩ (some 10) = .error (.other "boom") := by
  constructor
  · exact (C4_failure_policy ⟨fun _ => .error .readFailure, fun _ => "10"⟩
      ⟨"ks", "t", [⟨"id"⟩], "ddl"⟩ (some 10) (by decide) (by decide)).1 rfl
  · exact (C4_failure_policy ⟨fun _ => .error (.other "boom"), fun _ => "10"⟩
      ⟨"ks", "t", [⟨"id"⟩], "ddl"⟩ (some 10) (by decide) (by decide)).2.1
      (.other "boom") (by simp) rfl

/-- Looking a present key up in a tagged map of the keys finds the tag. -/
theorem lookup_map_pair {γ : Type} (g : String → γ) :
    ∀ (pk : List String) (n : String), n ∈ pk →
      List.lookup n (pk.map (fun k => (k, g k))) = some (g n)
  | [], n, h => absurd h (List.not_mem_nil n)
  | k :: rest, n, h => by
    by_cases e : n = k
    · subst e
      simp [List.lookup]
    · have hm : n ∈ rest := by
        rcases List.mem_cons.1 h with h1 | h2
        · exact absurd h1 e
        · exact h2
      have hbe : (n == k) = false := by
        simp [e]
      simp [List.lookup, hbe, lookup_map_pair g rest n hm]

/-- The `params` comprehension of `build_response_for_row` succeeds when
the row carries every primary-key column, returning the key/value pairs in
key order. -/
theorem pyMapM_lookup_ok (row : Row) :
    ∀ (pk : List String), (∀ k ∈ pk, (List.lookup k row).isSome) →
      pyMapM (fun k =>
        match List.lookup k row with
        | some v => Except.ok (k, v)
        | none => Except.error (QueryError.other ("KeyError: " ++ k))) pk =
      .ok (pk.map (fun k => (k, (List.lookup k row).getD .vnull)))
  | [], _ => by
    simp [pyMapM]
  | k :: rest, h => by
    obtain ⟨v, hv⟩ := Option.isSome_iff_exists.1 (h k (List.mem_cons_self _ _))
    rw [pyMapM, hv]
    rw [pyMapM_lookup_ok row rest (fun x hx => h x (List.mem_cons_of_mem k hx))]
    simp [Bind.bind, Except.bind, pure, Except.pure, hv]

/-- The joined primary-key predicate template resolves segment by segment:
`pk1 = %(pk1)s and pk2 = %(pk2)s ...` becomes `pk1 = v1 and pk2 = v2 ...`
under the named lookup. -/
theorem pctRun_pyJoin_predicate (named : String → Option String) :
    ∀ (ns : List String) (rest : List Char),
      (∀ n ∈ ns, '%' ∉ n.data ∧ ')' ∉ n.data) →
      (∀ n ∈ ns, (named n).isSome) →
      pctRun named .norm []
        ((pyJoin " and " (ns.map (fun n => n ++ " = %(" ++ n ++ ")s"))).data ++ rest) =
        (pctRun named .norm [] rest).map
          ((pyJoin " and " (ns.map (fun n => n ++ " = " ++ (named n).getD ""))).data ++ ·)
  | [], rest, _, _ => by
    simp only [List.map_nil, pyJoin]
    cases hr : pctRun named .norm [] rest <;> simp [hr]
  | [n], rest, h1, h2 => by
    obtain ⟨v, hv⟩ := Option.isSome_iff_exists.1 (h2 n (List.mem_cons_self _ _))
    have hc := h1 n (List.mem_cons_self _ _)
    simp only [List.map_cons, List.map_nil, pyJoin]
    have hsh : (n ++ " = %(" ++ n ++ ")s").data ++ rest =
        n.data ++ ' ' :: '=' :: ' ' :: '%' :: '(' :: (n.data ++ ')' :: 's' :: rest) := by
      simp [String.data_append, List.append_assoc,
        show (" = %(".data : List Char) = [' ', '=', ' ', '%', '('] from rfl,
        show (")s".data : List Char) = [')', 's'] from rfl]
    rw [hsh]
    rw [pctRun_eq_pred_seg named n.data rest hc.1 hc.2]
    rw [show String.mk n.data = n from rfl, hv]
    cases hr : pctRun named .norm [] rest <;>
      simp [hr, hv, String.data_append, List.append_assoc,
        show (" = ".data : List Char) = [' ', '=', ' '] from rfl]
  | n :: m :: more, rest, h1, h2 => by
    obtain ⟨v, hv⟩ := Option.isSome_iff_exists.1 (h2 n (List.mem_cons_self _ _))
    have hc := h1 n (List.mem_cons_self _ _)
    have h1' : ∀ x ∈ m :: more, '%' ∉ x.data ∧ ')' ∉ x.data :=
      fun x hx => h1 x (List.mem_cons_of_mem n hx)
    have h2' : ∀ x ∈ m :: more, (named x).isSome :=
      fun x hx => h2 x (List.mem_cons_of_mem n hx)
    have ih := pctRun_pyJoin_predicate named (m :: more) rest h1' h2'
    simp only [List.map_cons] at ih
    simp only [List.map_cons, pyJoin]
    have hsh : (n ++ " = %(" ++ n ++ ")s" ++ " and " ++
        pyJoin " and " ((m ++ " = %(" ++ m ++ ")s") ::
          more.map (fun x => x ++ " = %(" ++ x ++ ")s"))).data ++ rest =
        n.data ++ ' ' :: '=' :: ' ' :: '%' :: '(' :: (n.data ++ ')' :: 's' ::
          ([' ', 'a', 'n', 'd', ' '] ++
            ((pyJoin " and " ((m ++ " = %(" ++ m ++ ")s") ::
              more.map (fun x => x ++ " = %(" ++ x ++ ")s"))).data ++ rest))) := by
      simp [String.data_append, List.append_assoc,
        show (" = %(".data : List Char) = [' ', '=', ' ', '%', '('] from rfl,
        show (")s".data : List Char) = [')', 's'] from rfl,
        show (" and ".data : List Char) = [' ', 'a', 'n', 'd', ' '] from rfl]
    rw [hsh]
    rw [pctRun_eq_pred_seg named n.data _ hc.1 hc.2]
    rw [show String.mk n.data = n from rfl, hv]
    rw [pctRun_append_no_pct named [] [' ', 'a', 'n', 'd', ' '] _ (by decide)]
    rw [ih]
    cases hr : pctRun named .norm [] rest <;>
      simp [hr, hv, String.data_append, List.append_assoc,
        show (" = ".data : List Char) = [' ', '=', ' '] from rfl,
        show (" and ".data : List Char) = [' ', 'a', 'n', 'd', ' '] from rfl]

/-- The whole predicate statement resolves: prefix, table name and joined
predicate, with each `%(pk)s` replaced by the encoded row value. -/
theorem pctRun_predicate_query (session : Session) (ksn tn : String)
    (pknames : List String) (row : Row)
    (hks : '%' ∉ ksn.data) (htn : '%' ∉ tn.data)
    (hpk : ∀ n ∈ pknames, '%' ∉ n.data ∧ ')' ∉ n.data) :
    pctRun (fun n => Option.map session.enc
        (List.lookup n (List.map (fun k => (k, (List.lookup k row).getD Value.vnull)) pknames)))
      .norm []
      ("SELECT * FROM " ++ (ksn ++ "." ++ tn) ++ " WHERE " ++
        pyJoin " and " (List.map (fun n => n ++ " = %(" ++ n ++ ")s") pknames)).data =
      some ("SELECT * FROM " ++ ksn ++ "." ++ tn ++ " WHERE " ++
        pyJoin " and " (List.map (fun n =>
          n ++ " = " ++ session.enc ((List.lookup n row).getD .vnull)) pknames)).data := by
  have hnamed : ∀ n ∈ pknames,
      Option.map session.enc
        (List.lookup n (List.map (fun k => (k, (List.lookup k row).getD Value.vnull))
          pknames)) =
      some (session.enc ((List.lookup n row).getD .vnull)) := by
    intro n hn
    have := lookup_map_pair (fun k => (List.lookup k row).getD Value.vnull) pknames n hn
    simp only [this, Option.map]
  have hsh : ("SELECT * FROM " ++ (ksn ++ "." ++ tn) ++ " WHERE " ++
      pyJoin " and " (List.map (fun n => n ++ " = %(" ++ n ++ ")s") pknames)).data =
      ("SELECT * FROM ".data ++ ksn.data ++ ".".data ++ tn.data ++ " WHERE ".data) ++
        ((pyJoin " and " (List.map (fun n => n ++ " = %(" ++ n ++ ")s") pknames)).data ++
          []) := by
    simp [String.data_append, List.append_assoc]
  rw [hsh]
  rw [pctRun_append_no_pct _ _ _ _ ?hfree]
  case hfree =>
    intro hm
    simp only [List.append_assoc, List.mem_append] at hm
    rcases hm with h1 | h2 | h3 | h4 | h5
    · simp at h1
    · exact hks h2
    · simp at h3
    · exact htn h4
    · simp at h5
  rw [pctRun_pyJoin_predicate _ pknames [] hpk ?hB]
  case hB =>
    intro n hn
    rw [hnamed n hn]
    rfl
  rw [show pctRun (fun n => Option.map session.enc
      (List.lookup n (List.map (fun k => (k, (List.lookup k row).getD Value.vnull)) pknames)))
      .norm [] ([] : List Char) = some [] from rfl]
  have hjoin : List.map (fun n => n ++ " = " ++
      (Option.map session.enc
        (List.lookup n (List.map (fun k => (k, (List.lookup k row).getD Value.vnull))
          pknames))).getD "") pknames =
      List.map (fun n => n ++ " = " ++ session.enc ((List.lookup n row).getD .vnull))
        pknames := by
    apply List.map_congr_left
    intro n hn
    rw [hnamed n hn]
    rfl
  simp only [List.append_nil]
  rw [hjoin]
  simp [String.data_append, List.append_assoc]

/-- C6: for every table and sampled row the recorded query is the equality
predicate over exactly the primary-key columns in the table's declared
primary-key order, with the row's encoded key values substituted in — the
fully-resolved text `SELECT * FROM ks.t WHERE pk1 = v1 and pk2 = v2 ...`,
not the parameterized template. -/
theorem C6_resolved_predicate_query (session : Session) (table : TableMeta) (row : Row)
    (rs : List Row)
    (hks : '%' ∉ table.keyspace_name.data) (htn : '%' ∉ table.name.data)
    (hpk : ∀ c ∈ table.primary_key, '%' ∉ c.name.data ∧ ')' ∉ c.name.data)
    (hrow : ∀ c ∈ table.primary_key, (List.lookup c.name row).isSome)
    (hrun : session.run (resolvedQuery session table row) = .ok rs) :
    build_response_for_row session table row =
      .ok { query := resolvedQuery session table row,
            data := rs.map (fun r => escape_row (.vdict r)) } := by
  have hpk' : ∀ k ∈ table.primary_key.map ColumnMeta.name, (List.lookup k row).isSome := by
    intro k hk
    obtain ⟨c, hc, rfl⟩ := List.mem_map.1 hk
    exact hrow c hc
  rw [build_response_for_row]
  rw [pyMapM_lookup_ok row (table.primary_key.map ColumnMeta.name) hpk']
  simp only [Bind.bind, Except.bind]
  have hbp : bind_params
      ("SELECT * FROM " ++ (table.keyspace_name ++ "." ++ table.name) ++ " WHERE " ++
        pyJoin " and " (List.map (fun n => n ++ " = %(" ++ n ++ ")s")
          (List.map ColumnMeta.name table.primary_key)))
      [] (fun n => Option.map session.enc
        (List.lookup n
          (List.map (fun k => (k, (List.lookup k row).getD Value.vnull))
            (List.map ColumnMeta.name table.primary_key)))) =
      .ok (resolvedQuery session table row) := by
    rw [bind_params]
    rw [pctRun_predicate_query session table.keyspace_name table.name
      (List.map ColumnMeta.name table.primary_key) row hks htn ?hpk2]
    case hpk2 =>
      intro n hn
      obtain ⟨c, hc, rfl⟩ := List.mem_map.1 hn
      exact hpk c hc
    rfl
  simp only [hbp, hrun]
  rfl

/-- Witness for C6: a two-column primary key `(a, b)` on a row whose dict
lists `b` first still yields the predicate in declared order `a` then `b`,
fully resolved. -/
theorem C6_witness :
    build_response_for_row
      ⟨fun q => if q = "SELECT * FROM ks.t WHERE a = 1 and b = 2"
          then .ok [[("b", .vint 2), ("a", .vint 1)]] else .error (.other "x"),
        pyStr⟩
      ⟨"ks", "t", [⟨"a"⟩, ⟨"b"⟩], "ddl"⟩ [("b", .vint 2), ("a", .vint 1)] =
      .ok { query := "SELECT * FROM ks.t WHERE a = 1 and b = 2",
            data := [.vdict [("b", .vint 2), ("a", .vint 1)]] } := by
  have h := C6_resolved_predicate_query
    ⟨fun q => if q = "SELECT * FROM ks.t WHERE a = 1 and b = 2"
        then .ok [[("b", .vint 2), ("a", .vint 1)]] else .error (.other "x"),
      pyStr⟩
    ⟨"ks", "t", [⟨"a"⟩, ⟨"b"⟩], "ddl"⟩ [("b", .vint 2), ("a", .vint 1)]
    [[("b", .vint 2), ("a", .vint 1)]]
    (by decide) (by decide) (by decide) (by decide) (by rfl)
  exact h
